import Mathlib

/-!
# SlashTax frontend — verification of the specification against the sources

Shallow embedding of the SlashTax frontend (Next.js / TypeScript) in Lean 4.
The embedded code comes from:

* `src/frontend/src/types/index.ts` — the data model (`GraphNode`, `GraphEdge`,
  `GraphData`, `FaceDetection`, `PostAnalysis`, `ImportJob`, …);
* `src/frontend/src/components/GraphVisualization.tsx` — the `useMemo`
  transform that converts `GraphData` into force-graph nodes/links;
* `src/frontend/src/lib/store.ts` — the zustand store (`fetchGraphData`,
  `search`) and the `Home` page (`handleInstagramImport` polling, import
  status rendering);
* `src/frontend/src/components/NodeDetails.tsx` (second document:
  `ImageUpload`) — `handleUpload` in `post` and `person` mode;
* `src/unnamed/part_000` — the axios API client (`instagramApi.importPosts`).

The backend identity-resolution pipeline (EmbeddingMatcher / PersonRegistry)
is not part of the sources; it is modelled from the spec where a claim
depends on it, and that modelling is clearly marked.

Effectful TypeScript (async store actions, React event handlers) is embedded
as pure state-transition functions: the outcome of the awaited request is
passed in as an explicit `Except`/argument, and the sequence of `set` calls
is folded into a single resulting state, field by field exactly as the
source writes them.
-/

/-! ## Data model (`src/frontend/src/types/index.ts`) -/

/-- The five node kinds of the TS union
`'Person' | 'Post' | 'Location' | 'Account' | 'Hashtag'`. -/
inductive NodeType where
  | Person
  | Post
  | Location
  | Account
  | Hashtag
deriving DecidableEq, Repr

/-- `GraphNode` from `types/index.ts`. The open-ended
`properties: Record<string, unknown>` bag is embedded as a list of
string-keyed string values; nothing in the verified code inspects it. -/
structure GraphNode where
  id : String
  label : String
  type : NodeType
  properties : List (String × String)
deriving DecidableEq, Repr

/-- `GraphEdge` from `types/index.ts` (optional `properties` omitted:
the transform never reads it). -/
structure GraphEdge where
  source : String
  target : String
  type : String
deriving DecidableEq, Repr

/-- `GraphData` from `types/index.ts`. -/
structure GraphData where
  nodes : List GraphNode
  edges : List GraphEdge
deriving DecidableEq, Repr

/-! ## GraphVisualization transform
(`src/frontend/src/components/GraphVisualization.tsx`, lines 20–69) -/

/-- `NODE_COLORS` record. Because `NodeType` is the exact five-value union,
the TS fallback `|| '#888'` is unreachable and the lookup is total. -/
def NODE_COLORS : NodeType → String
  | .Person => "#ef4444"
  | .Post => "#3b82f6"
  | .Location => "#22c55e"
  | .Account => "#a855f7"
  | .Hashtag => "#f97316"

/-- `NODE_SIZES` record (TS fallback `|| 5` unreachable, as above). -/
def NODE_SIZES : NodeType → Nat
  | .Person => 8
  | .Post => 6
  | .Location => 7
  | .Account => 7
  | .Hashtag => 5

/-- A node in the force-graph input produced by the `useMemo` transform. -/
structure FGNode where
  id : String
  name : String
  type : NodeType
  properties : List (String × String)
  val : Nat
  color : String
deriving DecidableEq, Repr

/-- A link in the force-graph input produced by the `useMemo` transform. -/
structure FGLink where
  source : String
  target : String
  type : String
deriving DecidableEq, Repr

/-- The force-graph input: `{ nodes, links }`. -/
structure FGData where
  nodes : List FGNode
  links : List FGLink
deriving DecidableEq, Repr

/-- `nodeMap.has i` for the `Map` built by
`data.nodes.forEach((node) => nodeMap.set(node.id, node))`:
the map has key `i` exactly when some input node carries id `i`. -/
def nodeMapHas (nodes : List GraphNode) (i : String) : Bool :=
  nodes.any (fun n => n.id == i)

/-- The `graphData` `useMemo` body of `GraphVisualization` (lines 48–69):
maps nodes to force-graph nodes and keeps exactly the edges whose `source`
and `target` are both present in `nodeMap`. -/
def graphDataTransform (data : GraphData) : FGData :=
  { nodes := data.nodes.map (fun node =>
      { id := node.id
        name := node.label
        type := node.type
        properties := node.properties
        val := NODE_SIZES node.type
        color := NODE_COLORS node.type })
    links := (data.edges.filter (fun edge =>
        nodeMapHas data.nodes edge.source && nodeMapHas data.nodes edge.target)).map
      (fun edge =>
        { source := edge.source
          target := edge.target
          type := edge.type }) }

lemma nodeMapHas_iff (nodes : List GraphNode) (i : String) :
    nodeMapHas nodes i = true ↔ ∃ n ∈ nodes, n.id = i := by
  simp [nodeMapHas, List.any_eq_true]

/-- C2: the transformed link list holds exactly the input edges whose source
and target ids both occur among the input nodes, and every link's endpoints
name ids present in the transformed node list. -/
theorem graphVisualization_links_exact (data : GraphData) :
    (∀ l : FGLink, l ∈ (graphDataTransform data).links ↔
      ∃ e ∈ data.edges, l.source = e.source ∧ l.target = e.target ∧
        l.type = e.type ∧
        (∃ n ∈ data.nodes, n.id = e.source) ∧
        (∃ n ∈ data.nodes, n.id = e.target)) ∧
    (∀ l ∈ (graphDataTransform data).links,
      (∃ fn ∈ (graphDataTransform data).nodes, fn.id = l.source) ∧
      (∃ fn ∈ (graphDataTransform data).nodes, fn.id = l.target)) := by
  constructor
  · intro l
    simp only [graphDataTransform, List.mem_map, List.mem_filter]
    constructor
    · rintro ⟨e, ⟨he, hkeep⟩, rfl⟩
      rw [Bool.and_eq_true, nodeMapHas_iff, nodeMapHas_iff] at hkeep
      exact ⟨e, he, rfl, rfl, rfl, hkeep.1, hkeep.2⟩
    · rintro ⟨e, he, hs, ht, hty, hns, hnt⟩
      refine ⟨e, ⟨he, ?_⟩, ?_⟩
      · rw [Bool.and_eq_true, nodeMapHas_iff, nodeMapHas_iff]
        exact ⟨hns, hnt⟩
      · cases l
        simp_all
  · intro l hl
    simp only [graphDataTransform, List.mem_map, List.mem_filter] at hl
    obtain ⟨e, ⟨_, hkeep⟩, rfl⟩ := hl
    rw [Bool.and_eq_true, nodeMapHas_iff, nodeMapHas_iff] at hkeep
    obtain ⟨⟨ns, hns, hnsid⟩, ⟨nt, hnt, hntid⟩⟩ := hkeep
    constructor
    · exact ⟨_, by simpa [graphDataTransform] using ⟨ns, hns, rfl⟩, hnsid⟩
    · exact ⟨_, by simpa [graphDataTransform] using ⟨nt, hnt, rfl⟩, hntid⟩

/-- Witness for C2 on concrete data: with nodes `a`, `b` and edges
`a→b` (both endpoints present) and `a→x` (target absent), the transformed
link list contains the `a→b` link. -/
theorem graphVisualization_links_exact_witness :
    ({ source := "a", target := "b", type := "APPEARS_IN" } : FGLink) ∈
      (graphDataTransform
        { nodes :=
            [{ id := "a", label := "A", type := .Person, properties := [] },
             { id := "b", label := "B", type := .Post, properties := [] }]
          edges :=
            [{ source := "a", target := "b", type := "APPEARS_IN" },
             { source := "a", target := "x", type := "APPEARS_IN" }]
        }).links := by
  refine ((graphVisualization_links_exact
    { nodes :=
        [{ id := "a", label := "A", type := .Person, properties := [] },
         { id := "b", label := "B", type := .Post, properties := [] }]
      edges :=
        [{ source := "a", target := "b", type := "APPEARS_IN" },
         { source := "a", target := "x", type := "APPEARS_IN" }]
    }).1 _).mpr ?_
  refine ⟨{ source := "a", target := "b", type := "APPEARS_IN" },
    by decide, rfl, rfl, rfl,
    ⟨{ id := "a", label := "A", type := .Person, properties := [] },
      by decide, rfl⟩,
    ⟨{ id := "b", label := "B", type := .Post, properties := [] },
      by decide, rfl⟩⟩

/-! ## ImportJob (`src/frontend/src/types/index.ts`, lines 105–113) -/

/-- The TS union `'pending' | 'running' | 'completed' | 'failed'` of
`ImportJob.status`. -/
inductive ImportStatus where
  | pending
  | running
  | completed
  | failed
deriving DecidableEq, Repr

/-- `ImportJob` from `types/index.ts`. -/
structure ImportJob where
  job_id : String
  status : ImportStatus
  username : String
  total_posts : Nat
  processed_posts : Nat
  faces_detected : Nat
  errors : List String
deriving DecidableEq, Repr

/-- The import-status interface `GET /instagram/import/:jobId/status`
(`instagramApi.getImportStatus` in `src/unnamed/part_000`): any function a
caller uses to poll a job, typed to return an `ImportJob`. -/
def getImportStatusReturns (poll : String → ImportJob) (jobId : String) :
    ImportJob :=
  poll jobId

/-- C3: every `ImportJob` value — in particular every value returned by the
import-status interface — carries a status that is one of exactly
`pending`, `running`, `completed`, `failed`. -/
theorem importJob_status_four_values :
    (∀ j : ImportJob,
      j.status = .pending ∨ j.status = .running ∨
      j.status = .completed ∨ j.status = .failed) ∧
    (∀ (poll : String → ImportJob) (jobId : String),
      (getImportStatusReturns poll jobId).status = .pending ∨
      (getImportStatusReturns poll jobId).status = .running ∨
      (getImportStatusReturns poll jobId).status = .completed ∨
      (getImportStatusReturns poll jobId).status = .failed) := by
  have h : ∀ j : ImportJob,
      j.status = .pending ∨ j.status = .running ∨
      j.status = .completed ∨ j.status = .failed := by
    intro j
    cases hs : j.status <;> simp
  exact ⟨h, fun poll jobId => h (poll jobId)⟩

/-! ## Import polling (`store.ts` second document, `Home`,
`handleInstagramImport` / `pollStatus`, lines 231–248) -/

/-- The four data refreshes fired when polling stops. -/
inductive RefreshTarget where
  | graph
  | persons
  | posts
  | stats
deriving DecidableEq, Repr

/-- Observable effects of one execution of `pollStatus` after
`getImportStatus` has returned. -/
structure PollStepEffects where
  schedulesNextPoll : Bool
  nextPollDelayMs : Nat
  importingAfter : Bool
  refreshes : List RefreshTarget
deriving DecidableEq, Repr

/-- One `pollStatus` round, given the `ImportJob` the status request
returned: if `status.status === 'running'` it schedules itself again after
2000 ms and touches nothing else; otherwise it sets `importing` to `false`
and refreshes graph, persons, posts and stats. -/
def pollStatusStep (status : ImportJob) : PollStepEffects :=
  if status.status = .running then
    { schedulesNextPoll := true
      nextPollDelayMs := 2000
      importingAfter := true
      refreshes := [] }
  else
    { schedulesNextPoll := false
      nextPollDelayMs := 0
      importingAfter := false
      refreshes := [.graph, .persons, .posts, .stats] }

/-- C4: a further poll is scheduled (2000 ms later) iff the returned status
is exactly `running`; any other status — including the non-terminal
`pending` — schedules no further poll, sets `importing` to `false`, and
fires the four refreshes (graph, persons, posts, stats). -/
theorem pollStatus_reschedules_iff_running (status : ImportJob) :
    ((pollStatusStep status).schedulesNextPoll = true ↔
      status.status = .running) ∧
    (status.status = .running →
      (pollStatusStep status).nextPollDelayMs = 2000 ∧
      (pollStatusStep status).refreshes = []) ∧
    (status.status ≠ .running →
      (pollStatusStep status).importingAfter = false ∧
      (pollStatusStep status).refreshes =
        [.graph, .persons, .posts, .stats]) := by
  by_cases h : status.status = .running <;>
    simp [pollStatusStep, h]

/-- Witness for C4 at concrete inputs: a `running` job reschedules, a
`pending` job stops polling and refreshes all four data sets. -/
theorem pollStatus_reschedules_iff_running_witness :
    (pollStatusStep
      { job_id := "j1", status := .running, username := "u",
        total_posts := 10, processed_posts := 3, faces_detected := 2,
        errors := [] }).schedulesNextPoll = true ∧
    (pollStatusStep
      { job_id := "j1", status := .pending, username := "u",
        total_posts := 10, processed_posts := 0, faces_detected := 0,
        errors := [] }).importingAfter = false := by
  refine ⟨?_, ?_⟩
  · exact (pollStatus_reschedules_iff_running
      { job_id := "j1", status := .running, username := "u",
        total_posts := 10, processed_posts := 3, faces_detected := 2,
        errors := [] }).1.mpr rfl
  · exact ((pollStatus_reschedules_iff_running
      { job_id := "j1", status := .pending, username := "u",
        total_posts := 10, processed_posts := 0, faces_detected := 0,
        errors := [] }).2.2 (by decide)).1

/-! ## Import status rendering (`store.ts` second document, `Home`,
lines 535–569) -/

/-- What the import-status box shows. The `importStatus` local in `Home` is
`any`; when a poll result (an `ImportJob`) is rendered, every field below is
present. `processed_posts !== undefined` / `faces_detected !== undefined`
guards are embedded through `Option` fields of the rendered value. -/
structure ImportStatusView where
  status : ImportStatus
  processed_posts : Option Nat
  total_posts : Option Nat
  faces_detected : Option Nat
  errors : List String
deriving DecidableEq, Repr

/-- The view of a polled `ImportJob`: all fields are present. -/
def viewOfJob (j : ImportJob) : ImportStatusView :=
  { status := j.status
    processed_posts := some j.processed_posts
    total_posts := some j.total_posts
    faces_detected := some j.faces_detected
    errors := j.errors }

/-- What the status box of `Home` actually renders. -/
structure RenderedImportStatus where
  statusShown : ImportStatus
  showsProcessedCounter : Bool
  showsFacesCounter : Bool
  showsErrorSection : Bool
  displayedErrors : List String
deriving DecidableEq, Repr

/-- The import-status JSX of `Home` (lines 535–569): the processed/total and
faces counters render when their fields are not `undefined`; the error block
renders when `errors?.length > 0` and lists `errors.slice(0, 5)`. -/
def renderImportStatus (v : ImportStatusView) : RenderedImportStatus :=
  { statusShown := v.status
    showsProcessedCounter := v.processed_posts.isSome
    showsFacesCounter := v.faces_detected.isSome
    showsErrorSection := decide (0 < v.errors.length)
    displayedErrors :=
      if 0 < v.errors.length then v.errors.take 5 else [] }

/-- C5: rendering the status of a job whose error list is non-empty shows at
most the first 5 error messages, in order (the displayed list is
`errors.take 5`, a prefix of the error list of length at most 5), together
with the processed/total and faces-detected counters. -/
theorem importStatus_render_bounded_errors (j : ImportJob)
    (h : j.errors ≠ []) :
    (renderImportStatus (viewOfJob j)).displayedErrors = j.errors.take 5 ∧
    (renderImportStatus (viewOfJob j)).displayedErrors.length ≤ 5 ∧
    (∃ rest,
      (renderImportStatus (viewOfJob j)).displayedErrors ++ rest =
        j.errors) ∧
    (renderImportStatus (viewOfJob j)).showsErrorSection = true ∧
    (renderImportStatus (viewOfJob j)).showsProcessedCounter = true ∧
    (renderImportStatus (viewOfJob j)).showsFacesCounter = true := by
  have hlen : 0 < j.errors.length := List.length_pos.mpr h
  refine ⟨?_, ?_, ?_, ?_, ?_, ?_⟩ <;>
    simp [renderImportStatus, viewOfJob, hlen]
  exact ⟨j.errors.drop 5, List.take_append_drop 5 j.errors⟩

/-- Witness for C5: a job carrying seven errors displays exactly the first
five, with both counters shown. -/
theorem importStatus_render_bounded_errors_witness :
    (renderImportStatus (viewOfJob
      { job_id := "j2", status := .completed, username := "u",
        total_posts := 7, processed_posts := 7, faces_detected := 1,
        errors := ["e1", "e2", "e3", "e4", "e5", "e6", "e7"]
      })).displayedErrors = ["e1", "e2", "e3", "e4", "e5"] ∧
    (renderImportStatus (viewOfJob
      { job_id := "j2", status := .completed, username := "u",
        total_posts := 7, processed_posts := 7, faces_detected := 1,
        errors := ["e1", "e2", "e3", "e4", "e5", "e6", "e7"]
      })).showsProcessedCounter = true := by
  have h := importStatus_render_bounded_errors
    { job_id := "j2", status := .completed, username := "u",
      total_posts := 7, processed_posts := 7, faces_detected := 1,
      errors := ["e1", "e2", "e3", "e4", "e5", "e6", "e7"] }
    (by decide)
  refine ⟨?_, h.2.2.2.2.1⟩
  rw [h.1]
  rfl

/-! ## `instagramApi.importPosts` (`src/unnamed/part_000`, lines 196–207) -/

/-- The HTTP request `importPosts` builds: method, path (relative to the
axios `baseURL` ending in `/api`), and the JSON body
`{ username, max_posts, include_tagged }`. -/
structure ImportPostsRequest where
  method : String
  path : String
  username : String
  max_posts : Nat
  include_tagged : Bool
deriving DecidableEq, Repr

/-- The response body `importPosts` resolves with:
`{ job_id, message, status_url }`. -/
structure ImportPostsResponse where
  job_id : String
  message : String
  status_url : String
deriving DecidableEq, Repr

/-- The request `importPosts(username, maxPosts, includeTagged)` sends:
`api.post('/instagram/import', { username, max_posts: maxPosts,
include_tagged: includeTagged })`. -/
def importPostsRequest (username : String) (maxPosts : Nat)
    (includeTagged : Bool) : ImportPostsRequest :=
  { method := "POST"
    path := "/instagram/import"
    username := username
    max_posts := maxPosts
    include_tagged := includeTagged }

/-- The TS default parameter values `maxPosts = 50`, `includeTagged = true`:
the request sent by `importPosts(username)` with no optional arguments. -/
def importPostsRequestDefaults (username : String) : ImportPostsRequest :=
  importPostsRequest username 50 true

/-- `importPosts` returns `data` — the parsed response body — unchanged. -/
def importPostsResult (resp : ImportPostsResponse) : ImportPostsResponse :=
  resp

/-- C6: `importPosts(username)` without explicit optional arguments sends
`POST /instagram/import` with body
`{ username, max_posts: 50, include_tagged: true }`, and resolves with the
response data (its `job_id`, `message` and `status_url` fields intact). -/
theorem importPosts_default_request (username : String)
    (resp : ImportPostsResponse) :
    (importPostsRequestDefaults username).method = "POST" ∧
    (importPostsRequestDefaults username).path = "/instagram/import" ∧
    (importPostsRequestDefaults username).username = username ∧
    (importPostsRequestDefaults username).max_posts = 50 ∧
    (importPostsRequestDefaults username).include_tagged = true ∧
    (importPostsResult resp).job_id = resp.job_id ∧
    (importPostsResult resp).message = resp.message ∧
    (importPostsResult resp).status_url = resp.status_url := by
  refine ⟨rfl, rfl, rfl, rfl, rfl, rfl, rfl, rfl⟩

/-! ## Face detection results (`src/frontend/src/types/index.ts`,
lines 23–29 and 68–87) -/

/-- `FaceDetection.bounding_box`. JS `number` is embedded as `ℚ`; the
frontend only carries these values, it never computes with them. -/
structure BoundingBox where
  top : ℚ
  right : ℚ
  bottom : ℚ
  left : ℚ
deriving DecidableEq, Repr

/-- `FaceDetection` from `types/index.ts`. -/
structure FaceDetection where
  person_id : Option String
  person_name : Option String
  confidence : ℚ
  bounding_box : BoundingBox
  is_new_face : Bool
deriving DecidableEq, Repr

/-- `Location` from `types/index.ts`. -/
structure Location where
  id : String
  name : String
  latitude : Option ℚ
  longitude : Option ℚ
  post_count : Nat
deriving DecidableEq, Repr

/-- `PostAnalysis` from `types/index.ts`. -/
structure PostAnalysis where
  post_id : String
  faces : List FaceDetection
  location : Option Location
  hashtags : List String
  caption_analysis : Option String
deriving DecidableEq, Repr

/-! ## ImageUpload (`src/frontend/src/components/NodeDetails.tsx`, second
document, `ImageUpload`) -/

/-- Post mode, `handleUpload` (lines 309–320): after a successful upload the
faces offered for manual assignment are
`analysis.faces.filter((f) => f.is_new_face)`. -/
def uploadPostNewFaces (analysis : PostAnalysis) : List FaceDetection :=
  analysis.faces.filter (fun f => f.is_new_face)

/-- The "Identified Persons" chips of the results block (lines 531–548):
`result.faces.filter((f) => !f.is_new_face)` rendered as
`person_name (confidence)`. -/
def uploadPostIdentifiedDisplay (analysis : PostAnalysis) :
    List (Option String × ℚ) :=
  (analysis.faces.filter (fun f => !f.is_new_face)).map
    (fun f => (f.person_name, f.confidence))

/-- C8: the faces offered for name assignment are exactly the analysis's
faces flagged `is_new_face`, kept in their original order (an order-preserving
sublist of `analysis.faces`); the faces with `is_new_face = false` are
instead displayed as identified persons with their confidence. -/
theorem imageUpload_newFaces_exact (analysis : PostAnalysis) :
    (∀ f : FaceDetection, f ∈ uploadPostNewFaces analysis ↔
      f ∈ analysis.faces ∧ f.is_new_face = true) ∧
    (uploadPostNewFaces analysis).Sublist analysis.faces ∧
    (∀ p : Option String × ℚ, p ∈ uploadPostIdentifiedDisplay analysis ↔
      ∃ f ∈ analysis.faces, f.is_new_face = false ∧
        p = (f.person_name, f.confidence)) := by
  refine ⟨?_, ?_, ?_⟩
  · intro f
    simp [uploadPostNewFaces, List.mem_filter]
  · exact List.filter_sublist analysis.faces
  · intro p
    simp [uploadPostIdentifiedDisplay, List.mem_filter, List.mem_map]
    constructor
    · rintro ⟨f, ⟨hf, hn⟩, rfl⟩
      exact ⟨f, hf, hn, rfl⟩
    · rintro ⟨f, hf, hn, rfl⟩
      exact ⟨f, ⟨hf, hn⟩, rfl⟩

/-- Witness for C8 on a concrete analysis holding one known face (Alice,
`is_new_face = false`) and one novel face: the novel face is offered for
assignment and Alice is displayed as an identified person with her
confidence. -/
theorem imageUpload_newFaces_exact_witness :
    ({ person_id := none, person_name := none, confidence := 1,
       bounding_box := { top := 0, right := 1, bottom := 1, left := 0 },
       is_new_face := true } : FaceDetection) ∈
      uploadPostNewFaces
        { post_id := "p1"
          faces :=
            [{ person_id := some "alice", person_name := some "Alice",
               confidence := 1,
               bounding_box := { top := 0, right := 1, bottom := 1,
                                 left := 0 },
               is_new_face := false },
             { person_id := none, person_name := none, confidence := 1,
               bounding_box := { top := 0, right := 1, bottom := 1,
                                 left := 0 },
               is_new_face := true }]
          location := none
          hashtags := []
          caption_analysis := none } ∧
    (some "Alice", (1 : ℚ)) ∈
      uploadPostIdentifiedDisplay
        { post_id := "p1"
          faces :=
            [{ person_id := some "alice", person_name := some "Alice",
               confidence := 1,
               bounding_box := { top := 0, right := 1, bottom := 1,
                                 left := 0 },
               is_new_face := false },
             { person_id := none, person_name := none, confidence := 1,
               bounding_box := { top := 0, right := 1, bottom := 1,
                                 left := 0 },
               is_new_face := true }]
          location := none
          hashtags := []
          caption_analysis := none } := by
  have h := imageUpload_newFaces_exact
    { post_id := "p1"
      faces :=
        [{ person_id := some "alice", person_name := some "Alice",
           confidence := 1,
           bounding_box := { top := 0, right := 1, bottom := 1, left := 0 },
           is_new_face := false },
         { person_id := none, person_name := none, confidence := 1,
           bounding_box := { top := 0, right := 1, bottom := 1, left := 0 },
           is_new_face := true }]
      location := none
      hashtags := []
      caption_analysis := none }
  constructor
  · exact (h.1 _).mpr ⟨by simp, rfl⟩
  · exact (h.2.2 _).mpr
      ⟨{ person_id := some "alice", person_name := some "Alice",
         confidence := 1,
         bounding_box := { top := 0, right := 1, bottom := 1, left := 0 },
         is_new_face := false }, by simp, rfl, rfl⟩

/-- A `personsApi.createFromImage` invocation: the form data holds the
file, the `name` field, and the `notes` field when notes were entered. -/
structure CreateFromImageCall where
  name : String
  notes : Option String
deriving DecidableEq, Repr

/-- The observable outcome of `handleUpload` in person mode. -/
structure PersonUploadOutcome where
  createFromImageCalls : List CreateFromImageCall
  errorMessage : Option String
  uploadingAfter : Bool
deriving DecidableEq, Repr

/-- JS `String.prototype.trim`: strip leading and trailing whitespace.
Embedded over the character list so that it evaluates by `decide`
(`String.trim` itself is defined through well-founded recursion and does
not reduce in the kernel). -/
def jsTrim (s : String) : String :=
  String.mk
    (((s.data.dropWhile Char.isWhitespace).reverse.dropWhile
      Char.isWhitespace).reverse)

/-- Person mode, `handleUpload` (lines 302–344): with no file selected it
returns immediately; with a blank (trimmed-empty) name it sets the
error `'Please enter a name for the person'`, resets `uploading`, and never
calls `createFromImage`; otherwise it calls `createFromImage` once with the
entered name (and the notes field when notes is non-empty), then clears
`uploading`. `apiResult` is the message the `catch` branch would derive from
a rejected request (`err.response?.data?.detail || 'Upload failed'`), or
`none` if the request succeeds. -/
def handleUploadPerson (fileSelected : Bool) (personName notes : String)
    (apiResult : Option String) : PersonUploadOutcome :=
  if fileSelected = false then
    { createFromImageCalls := [], errorMessage := none,
      uploadingAfter := false }
  else if jsTrim personName = "" then
    { createFromImageCalls := []
      errorMessage := some "Please enter a name for the person"
      uploadingAfter := false }
  else
    { createFromImageCalls :=
        [{ name := personName
           notes := if notes = "" then none else some notes }]
      errorMessage := apiResult
      uploadingAfter := false }

/-- C7: in person mode a blank or whitespace-only name never reaches
`createFromImage` — the error message is set and `uploading` reset — while
a selected file with a non-blank name produces exactly one
`createFromImage` call carrying that name, and the notes when present. -/
theorem imageUpload_person_requires_name (personName notes : String)
    (apiResult : Option String) :
    (jsTrim personName = "" →
      (handleUploadPerson true personName notes apiResult).createFromImageCalls
        = [] ∧
      (handleUploadPerson true personName notes apiResult).errorMessage =
        some "Please enter a name for the person" ∧
      (handleUploadPerson true personName notes apiResult).uploadingAfter =
        false) ∧
    (jsTrim personName ≠ "" →
      (handleUploadPerson true personName notes
          apiResult).createFromImageCalls.length = 1 ∧
      ∀ c ∈ (handleUploadPerson true personName notes
          apiResult).createFromImageCalls,
        c.name = personName ∧
        c.notes = (if notes = "" then none else some notes)) := by
  by_cases h : jsTrim personName = "" <;>
    simp [handleUploadPerson, h]

/-- Witness for C7: a whitespace-only name (`"   "`) yields no call and the
error message; the name `"Alice"` with notes yields exactly one call with
that name and those notes. -/
theorem imageUpload_person_requires_name_witness :
    (handleUploadPerson true "   " "hello" none).createFromImageCalls = [] ∧
    (handleUploadPerson true "   " "hello" none).errorMessage =
      some "Please enter a name for the person" ∧
    (handleUploadPerson true "Alice" "met at party"
      none).createFromImageCalls.length = 1 := by
  have h1 := imageUpload_person_requires_name "   " "hello" none
  have h2 := imageUpload_person_requires_name "Alice" "met at party" none
  have hb : jsTrim "   " = "" := by decide
  have hn : jsTrim "Alice" ≠ "" := by decide
  exact ⟨(h1.1 hb).1, (h1.1 hb).2.1, (h2.2 hn).1⟩

/-! ## The zustand store (`src/frontend/src/lib/store.ts`) -/

/-- `Person` from `types/index.ts`. -/
structure Person where
  id : String
  name : String
  notes : Option String
  face_encoding : Option (List ℚ)
  profile_image : Option String
  post_count : Nat
  created_at : Option String
deriving DecidableEq, Repr

/-- `Post` from `types/index.ts`. -/
structure Post where
  id : String
  shortcode : String
  caption : Option String
  posted_at : Option String
  likes : Nat
  comments : Nat
  image_urls : List String
  faces_detected : Nat
  processed : Bool
deriving DecidableEq, Repr

/-- `Stats` from `types/index.ts`. -/
structure Stats where
  total_persons : Nat
  total_posts : Nat
  total_locations : Nat
  total_accounts : Nat
  total_hashtags : Nat
  total_faces_detected : Nat
  recent_posts : List Post
deriving DecidableEq, Repr

/-- The `'2d' | '3d'` union of `AppState.graphMode`. -/
inductive GraphMode where
  | mode2d
  | mode3d
deriving DecidableEq, Repr

/-- The zustand `AppState` (store.ts lines 5–18): data fields plus UI
state. -/
structure AppState where
  graphData : Option GraphData
  persons : List Person
  posts : List Post
  stats : Option Stats
  selectedNode : Option GraphNode
  searchResults : List GraphNode
  isLoading : Bool
  error : Option String
  sidebarOpen : Bool
  graphMode : GraphMode
deriving DecidableEq, Repr

/-- `fetchGraphData` (store.ts lines 67–76) as a state transition. The
outcome of `graphApi.getFullGraph(limit)` is passed as `result`. The action
first sets `{ isLoading: true, error: null }`; on success it sets
`{ graphData: data, isLoading: false }`; on rejection the catch-branch sets
`{ error: 'Failed to fetch graph data', isLoading: false }`. -/
def fetchGraphData (s : AppState) (result : Except Unit GraphData) :
    AppState :=
  let s1 := { s with isLoading := true, error := none }
  match result with
  | .ok data => { s1 with graphData := some data, isLoading := false }
  | .error _ =>
    { s1 with error := some "Failed to fetch graph data",
              isLoading := false }

/-- C9: `fetchGraphData` is atomic on error — a rejected request leaves
`graphData` unchanged, sets the error message, and ends with
`isLoading = false`; a successful request installs the response, leaves
`error` null, and ends with `isLoading = false`. -/
theorem fetchGraphData_atomic_on_error (s : AppState) :
    (∀ u : Unit,
      (fetchGraphData s (.error u)).graphData = s.graphData ∧
      (fetchGraphData s (.error u)).error =
        some "Failed to fetch graph data" ∧
      (fetchGraphData s (.error u)).isLoading = false) ∧
    (∀ data : GraphData,
      (fetchGraphData s (.ok data)).graphData = some data ∧
      (fetchGraphData s (.ok data)).error = none ∧
      (fetchGraphData s (.ok data)).isLoading = false) := by
  exact ⟨fun u => ⟨rfl, rfl, rfl⟩, fun data => ⟨rfl, rfl, rfl⟩⟩

/-- `search` (store.ts lines 109–118) as a state transition. `query` and
`stype` are the request parameters of `graphApi.searchGet(query, type)`;
they shape the request, not the state update. On success the action stores
`data.nodes` in `searchResults`; on rejection it sets
`{ error: 'Search failed', isLoading: false }`. -/
def searchAction (_query _stype : String) (s : AppState)
    (result : Except Unit GraphData) : AppState :=
  let s1 := { s with isLoading := true, error := none }
  match result with
  | .ok data => { s1 with searchResults := data.nodes, isLoading := false }
  | .error _ =>
    { s1 with error := some "Search failed", isLoading := false }

/-- C10: the `search` action only ever touches `searchResults`,
`isLoading` and `error`: on both the success and the failure path,
`graphData`, `persons`, `posts`, `stats`, `selectedNode`, `sidebarOpen` and
`graphMode` are exactly what they were before. -/
theorem search_frame (query stype : String) (s : AppState)
    (result : Except Unit GraphData) :
    (searchAction query stype s result).graphData = s.graphData ∧
    (searchAction query stype s result).persons = s.persons ∧
    (searchAction query stype s result).posts = s.posts ∧
    (searchAction query stype s result).stats = s.stats ∧
    (searchAction query stype s result).selectedNode = s.selectedNode ∧
    (searchAction query stype s result).sidebarOpen = s.sidebarOpen ∧
    (searchAction query stype s result).graphMode = s.graphMode := by
  cases result <;>
    exact ⟨rfl, rfl, rfl, rfl, rfl, rfl, rfl⟩

/-! ## EmbeddingMatcher / PersonRegistry (spec §4.1–§4.2) -/

/-- A face embedding: a fixed-length numeric vector, compared by
distance. -/
abbrev Embedding : Type := List ℚ

/-- Modelled from the spec: the backend `PersonRegistry` record of one
known person — the frontend sources do not contain the registry. A person
owns one or more embeddings; `pid` is the person's identity. -/
structure RegPerson where
  pid : Nat
  name : String
  embeddings : List Embedding
deriving Repr

/-- Modelled from the spec: the authoritative set of known persons, kept in
creation order (earliest-created first), as required by the spec's
deterministic tie-break. -/
structure Registry where
  persons : List RegPerson
deriving Repr

/-- Modelled from the spec: the result of `match(embedding)` —
`(personId, distance) | NoMatch`. -/
inductive MatchResult where
  | found (personId : Nat) (distance : ℚ)
  | NoMatch
deriving DecidableEq, Repr

/-- Every `(personId, distance)` candidate of the linear scan: the distance
from the query to each embedding held by each registered person, in
registry (creation) order. `d` is the distance function on embeddings
(the spec fixes only its use, "e.g. Euclidean"). -/
def matchCandidates (d : Embedding → Embedding → ℚ) (reg : Registry)
    (query : Embedding) : List (Nat × ℚ) :=
  reg.persons.flatMap (fun p =>
    p.embeddings.map (fun e => (p.pid, d query e)))

/-- The closest candidate. Replacement only on a strictly smaller distance,
so among exact ties the earliest-created person wins, as the spec's
tie-break demands. -/
def bestCandidate : List (Nat × ℚ) → Option (Nat × ℚ)
  | [] => none
  | c :: cs => some (cs.foldl (fun b x => if x.2 < b.2 then x else b) c)

/-- Modelled from the spec: `EmbeddingMatcher.match` (spec §4.1), which is
absent from the frontend sources. It computes the distance between the
query embedding and every embedding held by the registry and returns the
closest person when that distance is `≤ tolerance`, else `NoMatch`. -/
def matchEmbedding (d : Embedding → Embedding → ℚ) (tolerance : ℚ)
    (reg : Registry) (query : Embedding) : MatchResult :=
  match bestCandidate (matchCandidates d reg query) with
  | none => .NoMatch
  | some c => if c.2 ≤ tolerance then .found c.1 c.2 else .NoMatch

/-- Squared Euclidean distance on coordinate lists — a concrete instance of
the spec's "e.g. Euclidean in embedding space" distance, used to witness
the matcher theorems on concrete data. -/
def sqDist (a b : Embedding) : ℚ :=
  ((List.zip a b).map (fun p => (p.1 - p.2) * (p.1 - p.2))).sum

lemma bestCandidate_mem {cs : List (Nat × ℚ)} {c : Nat × ℚ}
    (h : bestCandidate cs = some c) : c ∈ cs := by
  match cs with
  | [] => simp [bestCandidate] at h
  | c₀ :: rest =>
    simp only [bestCandidate, Option.some.injEq] at h
    subst h
    induction rest generalizing c₀ with
    | nil => simp
    | cons x xs ih =>
      simp only [List.foldl_cons]
      by_cases hx : x.2 < c₀.2
      · simp only [if_pos hx]
        have := ih x
        rcases List.mem_cons.mp this with h | h
        · simp [h]
        · simp [List.mem_cons, h]
      · simp only [if_neg hx]
        have := ih c₀
        rcases List.mem_cons.mp this with h | h
        · simp [h]
        · simp [List.mem_cons, h]

/-- C1: (a) against a registry holding exactly one person with the single
embedding `e1`, a query `e2` whose distance to `e1` is within tolerance
matches that person; (b) a query farther than tolerance from every
registered embedding yields `NoMatch`. -/
theorem embeddingMatcher_match_spec (d : Embedding → Embedding → ℚ)
    (tolerance : ℚ) :
    (∀ (pid : Nat) (nm : String) (e1 e2 : Embedding),
      d e2 e1 ≤ tolerance →
      matchEmbedding d tolerance ⟨[⟨pid, nm, [e1]⟩]⟩ e2 =
        .found pid (d e2 e1)) ∧
    (∀ (reg : Registry) (e2 : Embedding),
      (∀ c ∈ matchCandidates d reg e2, tolerance < c.2) →
      matchEmbedding d tolerance reg e2 = .NoMatch) := by
  constructor
  · intro pid nm e1 e2 h
    simp [matchEmbedding, matchCandidates, bestCandidate, h]
  · intro reg e2 hfar
    unfold matchEmbedding
    cases hb : bestCandidate (matchCandidates d reg e2) with
    | none => rfl
    | some c =>
      have hc : c ∈ matchCandidates d reg e2 := bestCandidate_mem hb
      have : tolerance < c.2 := hfar c hc
      simp [not_le.mpr this]

/-- Witness for C1 on concrete data with squared Euclidean distance and
tolerance 1: the registry holds one person (`pid = 0`) with embedding
`[0, 0]`; the query `[1, 0]` (distance 1 ≤ 1) matches that person, while
the query `[5, 0]` (distance 25 > 1 to every registered embedding) yields
`NoMatch`. -/
theorem embeddingMatcher_match_spec_witness :
    matchEmbedding sqDist 1 ⟨[⟨0, "Alice", [[0, 0]]⟩]⟩ [1, 0] =
      .found 0 1 ∧
    matchEmbedding sqDist 1 ⟨[⟨0, "Alice", [[0, 0]]⟩]⟩ [5, 0] =
      .NoMatch := by
  have h := embeddingMatcher_match_spec sqDist 1
  have hd : sqDist [1, 0] [0, 0] = 1 := by
    simp [sqDist]
  constructor
  · have h1 := h.1 0 "Alice" [0, 0] [1, 0] (by rw [hd])
    rw [hd] at h1
    exact h1
  · refine h.2 ⟨[⟨0, "Alice", [[0, 0]]⟩]⟩ [5, 0] ?_
    intro c hc
    simp [matchCandidates, sqDist] at hc
    subst hc
    norm_num
